import Mathlib

/-!
Shallow embedding of the BrickBreaker collision core (Ball.cpp, Brick.cpp,
Barrier.cpp, Paddle.cpp) over the real numbers.

Modelling conventions:
* `float` values become `ℝ`; `powf(u, 2)` becomes `u ^ 2` and `powf(u, .5)`
  (applied to sums of squares) becomes `Real.sqrt`.
* `sf::FloatRect` is `Rect`, `sf::Vector2f` is `Vec2`; `FloatRect::contains`
  and `FloatRect::intersects` are transcribed from SFML 2.x (half-open
  containment, strict-overlap intersection, both normalising with min/max).
* A ball's `circle_.getGlobalBounds()` is the axis-aligned box of the ideal
  circle, `(x - r, y - r, 2r, 2r)`: the circle's origin is set to its centre,
  and the 1-pixel outline decoration and 50-gon approximation that SFML folds
  into the cached bounds are rendering details outside the collision model.
* `sf::Transform` (only ever built from `rotate` calls) is the 2×2 matrix
  `Mat2`; `Transform::rotate(a)` converts with the source's literal
  `3.141592654 / 180` and post-multiplies, which `Mat2.mul` mirrors.
* C++ reference out-parameters (`FloatRect&`) become `Char × Rect` results;
  methods that mutate `vel_` return `Option Vec2` (`some` = handled).
* `BALL_MAX_SPEED` comes from `Constants.h`, which is not part of the sources
  here and whose value the documentation does not fix, so the embedding
  carries it as the environment field `ballMaxSpeed`.
-/

open scoped Classical

namespace BrickBreaker

/-- sf::Vector2f -/
@[ext]
structure Vec2 where
  x : ℝ
  y : ℝ

/-- sf::FloatRect -/
@[ext]
structure Rect where
  left : ℝ
  top : ℝ
  width : ℝ
  height : ℝ

/-- sf::Rect::contains (SFML 2.x): half-open box membership after
normalising the extents with min/max. -/
def Rect.containsPt (r : Rect) (px py : ℝ) : Prop :=
  min r.left (r.left + r.width) ≤ px ∧ px < max r.left (r.left + r.width) ∧
  min r.top (r.top + r.height) ≤ py ∧ py < max r.top (r.top + r.height)

/-- sf::Rect::intersects (SFML 2.x): the normalised boxes overlap with
positive area (strict inequalities). -/
def Rect.intersects (r1 r2 : Rect) : Prop :=
  max (min r1.left (r1.left + r1.width)) (min r2.left (r2.left + r2.width)) <
    min (max r1.left (r1.left + r1.width)) (max r2.left (r2.left + r2.width)) ∧
  max (min r1.top (r1.top + r1.height)) (min r2.top (r2.top + r2.height)) <
    min (max r1.top (r1.top + r1.height)) (max r2.top (r2.top + r2.height))

/-- The linear part of an sf::Transform (the transforms in Ball.cpp are pure
rotations, which never carry a translation). -/
@[ext]
structure Mat2 where
  a00 : ℝ
  a01 : ℝ
  a10 : ℝ
  a11 : ℝ

/-- Matrix product; sf::Transform::rotate post-multiplies by a rotation
matrix, so `m.mul (rotationDeg a)` is `m.rotate(a)` in the source. -/
def Mat2.mul (m n : Mat2) : Mat2 :=
  ⟨m.a00 * n.a00 + m.a01 * n.a10, m.a00 * n.a01 + m.a01 * n.a11,
   m.a10 * n.a00 + m.a11 * n.a10, m.a10 * n.a01 + m.a11 * n.a11⟩

/-- sf::Transform::transformPoint for a pure rotation. -/
def Mat2.transformPoint (m : Mat2) (v : Vec2) : Vec2 :=
  ⟨m.a00 * v.x + m.a01 * v.y, m.a10 * v.x + m.a11 * v.y⟩

/-- sf::Transform::rotate applied to the identity: angle in degrees,
converted with the source's literal coefficient 3.141592654 / 180. -/
noncomputable def rotationDeg (angle : ℝ) : Mat2 :=
  ⟨Real.cos (angle * 3.141592654 / 180), -Real.sin (angle * 3.141592654 / 180),
   Real.sin (angle * 3.141592654 / 180), Real.cos (angle * 3.141592654 / 180)⟩

/-- Ball state: circle_ (centre position and radius), vel_, attachedPos_
(none ↔ nullptr), collisionState_ and the inherited delete_ flag. -/
structure Ball where
  pos : Vec2
  radius : ℝ
  vel : Vec2
  attachedPos : Option Vec2
  collisionState : Bool
  delete : Bool

/-- Ball::isAttached. -/
def Ball.isAttached (b : Ball) : Bool :=
  b.attachedPos.isSome

/-- circle_.getGlobalBounds(): the axis-aligned box of the ball's circle
(the origin is the centre, so the box is centre ± radius). -/
def ballBounds (b : Ball) : Rect :=
  ⟨b.pos.x - b.radius, b.pos.y - b.radius, 2 * b.radius, 2 * b.radius⟩

/-- Ball::collision (Ball.cpp lines 105-128): the peer-facing query.
On contact it stores this ball's centre and velocity in the bounding box. -/
noncomputable def Ball.collision (b : Ball) (boundingBox : Rect) : Char × Rect :=
  if b.isAttached then ('n', boundingBox)
  else
    let thisCenter := b.pos
    let otherCenter : Vec2 :=
      ⟨boundingBox.left + boundingBox.width / 2, boundingBox.top + boundingBox.height / 2⟩
    let distance :=
      Real.sqrt ((thisCenter.x - otherCenter.x) ^ 2 + (thisCenter.y - otherCenter.y) ^ 2)
    if distance < boundingBox.width / 2 + b.radius ∧ distance > b.radius / 4 then
      ('y', ⟨thisCenter.x, thisCenter.y, b.vel.x, b.vel.y⟩)
    else ('n', boundingBox)

/-- Barrier state: the three wall rectangles (their global bounds). -/
structure Barrier where
  left : Rect
  top : Rect
  right : Rect

/-- Barrier::collision (Barrier.cpp lines 38-49). The source never writes to
the bounding box, so the box is returned as received in every branch. -/
noncomputable def Barrier.collision (bar : Barrier) (boundingBox : Rect) : Char × Rect :=
  if bar.left.intersects boundingBox ∨ bar.right.intersects boundingBox then
    ('h', boundingBox)
  else if bar.top.intersects boundingBox then
    ('v', boundingBox)
  else
    ('n', boundingBox)

/-- Brick state: rectangle_ global bounds, special_ tag, delete_ flag. -/
structure Brick where
  rect : Rect
  special : Char
  delete : Bool

/-- Brick::collision (Brick.cpp lines 42-108): midline tests, then the four
corners in the order top-left, top-right, bottom-right, bottom-left; a corner
hit stores the corner's coordinates in the bounding box. -/
noncomputable def Brick.collision (brick : Brick) (boundingBox : Rect) : Char × Rect :=
  let bounds := brick.rect
  let center : Vec2 :=
    ⟨boundingBox.left + boundingBox.width / 2, boundingBox.top + boundingBox.height / 2⟩
  let radius := boundingBox.width / 2
  if bounds.intersects boundingBox then
    if bounds.containsPt center.x boundingBox.top ∨
        bounds.containsPt center.x (boundingBox.top + boundingBox.height) then
      ('v', boundingBox)
    else if bounds.containsPt boundingBox.left center.y ∨
        bounds.containsPt (boundingBox.left + boundingBox.width) center.y then
      ('h', boundingBox)
    else if Real.sqrt ((center.x - bounds.left) ^ 2 + (center.y - bounds.top) ^ 2) < radius then
      ('c', ⟨bounds.left, bounds.top, boundingBox.width, boundingBox.height⟩)
    else if Real.sqrt ((center.x - (bounds.left + bounds.width)) ^ 2 +
        (center.y - bounds.top) ^ 2) < radius then
      ('c', ⟨bounds.left + bounds.width, bounds.top, boundingBox.width, boundingBox.height⟩)
    else if Real.sqrt ((center.x - (bounds.left + bounds.width)) ^ 2 +
        (center.y - (bounds.top + bounds.height)) ^ 2) < radius then
      ('c', ⟨bounds.left + bounds.width, bounds.top + bounds.height,
             boundingBox.width, boundingBox.height⟩)
    else if Real.sqrt ((center.x - bounds.left) ^ 2 +
        (center.y - (bounds.top + bounds.height)) ^ 2) < radius then
      ('c', ⟨bounds.left, bounds.top + bounds.height, boundingBox.width, boundingBox.height⟩)
    else ('n', boundingBox)
  else ('n', boundingBox)

/-- Paddle state, recording exactly the SFML getters Paddle::collision reads:
rectangle_.getGlobalBounds(), getSize(), getRotation(), the two end-cap
centres and radius, and vel_. -/
structure Paddle where
  rectBounds : Rect
  rectSize : Vec2
  rotation : ℝ
  leftCenter : Vec2
  rightCenter : Vec2
  capRadius : ℝ
  vel : ℝ

/-- Paddle::collision (Paddle.cpp lines 82-146): long-axis projection test
('v', storing rotation and velocity), then the end-cap circle test
('s', storing the cap centre and velocity). -/
noncomputable def Paddle.collision (p : Paddle) (boundingBox : Rect) : Char × Rect :=
  let ax := boundingBox.left + boundingBox.width / 2 - p.leftCenter.x
  let ay := p.leftCenter.y - (boundingBox.top + boundingBox.width / 2)
  let bxv := p.rightCenter.x - p.leftCenter.x
  let byv := p.leftCenter.y - p.rightCenter.y
  let projFactor := (ax * bxv + ay * byv) / (bxv * bxv + byv * byv)
  let dist := Real.sqrt ((ax - bxv * projFactor) ^ 2 + (ay - byv * projFactor) ^ 2)
  if (p.rectBounds.intersects boundingBox ∧
      boundingBox.left + boundingBox.width / 2 > p.leftCenter.x ∧
      boundingBox.left + boundingBox.width / 2 < p.rightCenter.x) ∧
      dist < boundingBox.width / 2 + p.rectSize.y / 2 then
    ('v', ⟨p.rotation, boundingBox.top, p.vel, 0⟩)
  else
    let leftCircleBounds : Rect :=
      ⟨p.leftCenter.x - p.capRadius, p.leftCenter.y - p.capRadius,
       2 * p.capRadius, 2 * p.capRadius⟩
    let rightCircleBounds : Rect :=
      ⟨p.rightCenter.x - p.capRadius, p.rightCenter.y - p.capRadius,
       2 * p.capRadius, 2 * p.capRadius⟩
    let temp := leftCircleBounds.intersects boundingBox
    if temp ∨ rightCircleBounds.intersects boundingBox then
      let thisCenter := if temp then p.leftCenter else p.rightCenter
      let otherCenter : Vec2 :=
        ⟨boundingBox.left + boundingBox.width / 2, boundingBox.top + boundingBox.height / 2⟩
      if Real.sqrt ((thisCenter.x - otherCenter.x) ^ 2 + (thisCenter.y - otherCenter.y) ^ 2) <
          boundingBox.width / 2 + p.capRadius then
        ('s', ⟨thisCenter.x, thisCenter.y, p.vel, 0⟩)
      else ('n', boundingBox)
    else ('n', boundingBox)

/-- Ball::getContactAngle (Ball.cpp lines 360-378): arctan of Δx/Δy scaled
to degrees by the source's literal 57.295779513. In the Δy = 0 branch the
program computes `1.570796327f * 57.295779513f`; in its binary32 arithmetic
the exact product of the two rounded floats lies within half an ulp of 90,
so the multiplication rounds to exactly 90.0f — the branch is therefore
embedded as the value 90 the program observably produces. -/
noncomputable def getContactAngle (object1 : Vec2) (object2 : Rect) : ℝ :=
  let denominator := object1.y - object2.top
  if denominator = 0 then 90
  else Real.arctan ((object1.x - object2.left) / denominator) * 57.295779513

/-- Ball::handleSimpleCollision (Ball.cpp lines 343-358): 'v' flips the
y-velocity, 'h' flips the x-velocity, anything else is unhandled. -/
def handleSimpleCollision (c : Char) (vel : Vec2) : Option Vec2 :=
  if c = 'v' then some ⟨vel.x, -vel.y⟩
  else if c = 'h' then some ⟨-vel.x, vel.y⟩
  else none

/-- The rotate / negate-y / rotate-back sequence used for brick corners
(Ball.cpp lines 260-273): the back rotation is the transform after a further
rotate(-2·angle), i.e. the matrix product. -/
noncomputable def reflectAtAngle (contactAngle : ℝ) (vel : Vec2) : Vec2 :=
  let rot := rotationDeg contactAngle
  let v1 := rot.transformPoint vel
  let v2 : Vec2 := ⟨v1.x, -v1.y⟩
  (rot.mul (rotationDeg (-2 * contactAngle))).transformPoint v2

/-- The rotate / invert-and-add / rotate-back sequence shared by the two
paddle branches (Ball.cpp lines 162-179 and 192-209). -/
noncomputable def paddleBounce (contactAngle : ℝ) (vel otherVel : Vec2) : Vec2 :=
  let rot := rotationDeg contactAngle
  let v1 := rot.transformPoint vel
  let o1 := rot.transformPoint otherVel
  let v2 : Vec2 := ⟨v1.x, -v1.y + o1.y * 1.1⟩
  (rot.mul (rotationDeg (-2 * contactAngle))).transformPoint v2

/-- The ball-ball resolution (Ball.cpp lines 308-333): rotate both
velocities into the contact frame, swap the y components, rotate both back
with the composed transform. Returns (this ball's new velocity, the other
ball's new velocity). -/
noncomputable def resolveBallBall (contactAngle : ℝ) (vel otherVel : Vec2) : Vec2 × Vec2 :=
  let rot := rotationDeg contactAngle
  let v1 := rot.transformPoint vel
  let o1 := rot.transformPoint otherVel
  let v2 : Vec2 := ⟨v1.x, o1.y⟩
  let o2 : Vec2 := ⟨o1.x, v1.y⟩
  let rotBack := rot.mul (rotationDeg (-2 * contactAngle))
  (rotBack.transformPoint v2, rotBack.transformPoint o2)

/-- Ball::handleBarrierCollisions (Ball.cpp lines 221-230). -/
noncomputable def handleBarrierCollisions (bar : Barrier) (bounds : Rect) (vel : Vec2) :
    Option Vec2 :=
  handleSimpleCollision (bar.collision bounds).1 vel

/-- Ball::handlePaddleCollisions (Ball.cpp lines 151-219): 'v' uses the
negated reported rotation as contact angle, 's' derives the angle from the
reported cap centre; both then run the shared bounce. -/
noncomputable def handlePaddleCollisions (p : Paddle) (pos : Vec2) (bounds : Rect) (vel : Vec2) :
    Option Vec2 :=
  let res := p.collision bounds
  if res.1 = 'v' then
    some (paddleBounce (-res.2.left) vel ⟨res.2.width, res.2.height⟩)
  else if res.1 = 's' then
    some (paddleBounce (getContactAngle pos res.2) vel ⟨res.2.width, res.2.height⟩)
  else none

/-- Ball::handleBrickCollisions (Ball.cpp lines 232-281): walk the bricks in
index order; the first brick reporting contact is marked for deletion, and
the ball's velocity is updated by the simple reflection or, for 'c', the
corner bounce. Returns the updated brick list and the new velocity, if any. -/
noncomputable def handleBrickCollisions (pos : Vec2) (bounds : Rect) (vel : Vec2) :
    List Brick → List Brick × Option Vec2
  | [] => ([], none)
  | brick :: rest =>
    let res := brick.collision bounds
    let brick' := if res.1 ≠ 'n' then { brick with delete := true } else brick
    match handleSimpleCollision res.1 vel with
    | some v => (brick' :: rest, some v)
    | none =>
      if res.1 = 'c' then
        (brick' :: rest, some (reflectAtAngle (getContactAngle pos res.2) vel))
      else
        let r := handleBrickCollisions pos bounds vel rest
        (brick' :: r.1, r.2)

/-- Ball::handleBallCollisions (Ball.cpp lines 283-341): skip peers whose
parity flag already differs, query the rest, and on the first 'y' run the
swap resolution and write the peer's new velocity directly into it. The
objects in the balls segment of the vector are all balls, so the
dynamic_cast always succeeds and the parity test applies to every entry. -/
noncomputable def handleBallCollisions (pos : Vec2) (myState : Bool) (bounds : Rect) (vel : Vec2) :
    List Ball → List Ball × Option Vec2
  | [] => ([], none)
  | ball :: rest =>
    if ball.collisionState ≠ myState then
      let r := handleBallCollisions pos myState bounds vel rest
      (ball :: r.1, r.2)
    else
      let res := ball.collision bounds
      if res.1 = 'y' then
        let rr := resolveBallBall (getContactAngle pos res.2) vel ⟨res.2.width, res.2.height⟩
        ({ ball with vel := rr.2 } :: rest, some rr.1)
      else
        let r := handleBallCollisions pos myState bounds vel rest
        (ball :: r.1, r.2)

/-- The slice of GraphicsRunner state that Ball::move reads: the window
height, the barrier and paddle, the bricks segment and the balls segment of
the objects vector, and the speed ceiling (BALL_MAX_SPEED lives in
Constants.h, which is not among the sources, so it is a field here). -/
structure GraphicsRunner where
  windowHeight : ℝ
  ballMaxSpeed : ℝ
  barrier : Barrier
  paddle : Paddle
  bricks : List Brick
  balls : List Ball

/-- The short-circuiting collision chain of Ball::move (lines 75-79):
attached taken as an immediate hit, else barrier, paddle, bricks, balls.
Returns (collided, new velocity, updated bricks, updated balls). -/
noncomputable def collisionPhase (g : GraphicsRunner) (b : Ball) :
    Bool × Vec2 × List Brick × List Ball :=
  let bounds := ballBounds b
  if b.isAttached then (true, b.vel, g.bricks, g.balls)
  else
    match handleBarrierCollisions g.barrier bounds b.vel with
    | some v => (true, v, g.bricks, g.balls)
    | none =>
      match handlePaddleCollisions g.paddle b.pos bounds b.vel with
      | some v => (true, v, g.bricks, g.balls)
      | none =>
        let rb := handleBrickCollisions b.pos bounds b.vel g.bricks
        match rb.2 with
        | some v => (true, v, rb.1, g.balls)
        | none =>
          let rl := handleBallCollisions b.pos b.collisionState bounds b.vel g.balls
          match rl.2 with
          | some v => (true, v, rb.1, rl.1)
          | none => (false, b.vel, rb.1, rl.1)

/-- Ball::move (Ball.cpp lines 58-103): off-field deletion check, collision
chain, the half-step nudge on contact, the parity flip, the attached-ball
snap, the speed clamp, and the final translation. -/
noncomputable def Ball.move (g : GraphicsRunner) (b : Ball) : Ball × GraphicsRunner :=
  let bounds := ballBounds b
  if bounds.top > g.windowHeight then
    ({ b with delete := true }, g)
  else
    let phase := collisionPhase g b
    let vel1 := phase.2.1
    let pos1 : Vec2 :=
      if phase.1 = true ∧ b.isAttached = false then
        ⟨b.pos.x + vel1.x * 0.5, b.pos.y + vel1.y * 0.5⟩
      else b.pos
    let newState := !b.collisionState
    let pos2 : Vec2 :=
      match b.attachedPos with
      | some a => ⟨a.x, a.y - b.radius⟩
      | none => pos1
    let vel2 : Vec2 :=
      if vel1.x > g.ballMaxSpeed ∨ vel1.y > g.ballMaxSpeed then
        ⟨vel1.x * 0.99, vel1.y * 0.99⟩
      else vel1
    let pos3 : Vec2 := ⟨pos2.x + vel2.x, pos2.y + vel2.y⟩
    ({ b with pos := pos3, vel := vel2, collisionState := newState },
     { g with bricks := phase.2.2.1, balls := phase.2.2.2 })

/-! Spec-side predicates for the brick dispatch (claim C3), written from the
specification's wording of the four tests, to be compared with
`Brick.collision`. -/

/-- Spec wording: the circle's top or bottom midline point lies inside the
brick. -/
def vertTest (brick : Brick) (box : Rect) : Prop :=
  brick.rect.containsPt (box.left + box.width / 2) box.top ∨
  brick.rect.containsPt (box.left + box.width / 2) (box.top + box.height)

/-- Spec wording: the circle's left or right midline point lies inside the
brick. -/
def horizTest (brick : Brick) (box : Rect) : Prop :=
  brick.rect.containsPt box.left (box.top + box.height / 2) ∨
  brick.rect.containsPt (box.left + box.width) (box.top + box.height / 2)

/-- The brick's four corners, in the order the source tests them. -/
def brickCorners (brick : Brick) : List Vec2 :=
  [⟨brick.rect.left, brick.rect.top⟩,
   ⟨brick.rect.left + brick.rect.width, brick.rect.top⟩,
   ⟨brick.rect.left + brick.rect.width, brick.rect.top + brick.rect.height⟩,
   ⟨brick.rect.left, brick.rect.top + brick.rect.height⟩]

/-- Spec wording: the Euclidean distance from the circle's centre to one of
the brick's four corners is less than the circle's radius. -/
def cornerTest (brick : Brick) (box : Rect) : Prop :=
  ∃ p ∈ brickCorners brick,
    Real.sqrt ((box.left + box.width / 2 - p.x) ^ 2 + (box.top + box.height / 2 - p.y) ^ 2) <
      box.width / 2

/-- Claim C1 as stated: any ball entering a frame with either velocity axis
exceeding the ceiling in magnitude leaves move() with both components
strictly smaller in magnitude. -/
noncomputable def speedClampClaim : Prop :=
  ∀ (g : GraphicsRunner) (b : Ball),
    |b.vel.x| > g.ballMaxSpeed ∨ |b.vel.y| > g.ballMaxSpeed →
    |(Ball.move g b).1.vel.x| < |b.vel.x| ∧ |(Ball.move g b).1.vel.y| < |b.vel.y|

/-! Concrete fixtures used by witnesses and counterexamples. -/

/-- A rectangle far away from every test ball. -/
def farRect : Rect := ⟨-1000, -1000, 1, 1⟩

/-- A barrier whose three walls are far from every test ball. -/
def testBarrier : Barrier := ⟨farRect, farRect, farRect⟩

/-- A paddle far from every test ball. -/
def testPaddle : Paddle := ⟨farRect, ⟨100, 20⟩, 0, ⟨-990, -990⟩, ⟨-980, -990⟩, 10, 0⟩

/-- A game with a 600-pixel-high field, speed ceiling 10, no bricks and no
peer balls. -/
def gameA : GraphicsRunner := ⟨600, 10, testBarrier, testPaddle, [], []⟩

/-- A free ball with a large negative x velocity (used against C1). -/
def ballFastNeg : Ball := ⟨⟨100, 100⟩, 5, ⟨-20, 0⟩, none, false, false⟩

/-- A free ball exceeding the ceiling on the positive x axis. -/
def ballFastPos : Ball := ⟨⟨100, 100⟩, 5, ⟨20, 5⟩, none, false, false⟩

/-- A ball whose bounds have left the 600-pixel field vertically. -/
def ballOff : Ball := ⟨⟨100, 700⟩, 5, ⟨1, 2⟩, none, false, false⟩

/-- An attached ball carrying a nonzero velocity field (used against C4). -/
def ballAttachedV : Ball := ⟨⟨50, 50⟩, 5, ⟨1, 1⟩, some ⟨50, 50⟩, false, false⟩

/-- An attached ball with zero velocity, as the constructors make them. -/
def ballAttachedZ : Ball := ⟨⟨50, 50⟩, 5, ⟨0, 0⟩, some ⟨50, 50⟩, false, false⟩

/-- Scenario 2, first ball: centre (100,100), radius 5, velocity (0,-2). -/
def ballA : Ball := ⟨⟨100, 100⟩, 5, ⟨0, -2⟩, none, false, false⟩

/-- Scenario 2, second ball: centre (100,108), radius 5, velocity (0,3). -/
def ballB : Ball := ⟨⟨100, 108⟩, 5, ⟨0, 3⟩, none, false, false⟩

/-- Scenario 1 brick: rectangle (90,80,40,20). -/
def brickA : Brick := ⟨⟨90, 80, 40, 20⟩, '\x00', false⟩

/-- A realistic barrier: left, top and right walls of an 800x600 field. -/
def wallBarrier : Barrier := ⟨⟨0, 0, 10, 600⟩, ⟨0, 0, 800, 10⟩, ⟨790, 0, 10, 600⟩⟩

/-- A box overlapping only the left wall of `wallBarrier`. -/
def boxNearLeft : Rect := ⟨5, 50, 10, 10⟩

/-! Shared helper lemmas. -/

/-- Helper: the early-exit branch of Ball::move. -/
theorem move_offField_eq (g : GraphicsRunner) (b : Ball)
    (h : (ballBounds b).top > g.windowHeight) :
    Ball.move g b = ({ b with delete := true }, g) := by
  unfold Ball.move
  rw [if_pos h]

/-- Helper: an attached ball short-circuits the collision chain. -/
theorem collisionPhase_attached (g : GraphicsRunner) (b : Ball)
    (h : b.isAttached = true) :
    collisionPhase g b = (true, b.vel, g.bricks, g.balls) := by
  unfold collisionPhase
  rw [h]
  simp

/-- C8: a ball whose bounding box's top edge is beyond the field height at
the start of move() is marked for deletion and move() stops at once: no
collision checks run (the game state is returned untouched) and every other
ball field keeps its value. -/
theorem move_offField_deletes (g : GraphicsRunner) (b : Ball)
    (h : (ballBounds b).top > g.windowHeight) :
    Ball.move g b = ({ b with delete := true }, g) :=
  move_offField_eq g b h

/-- Witness for C8: the concrete ball at height 700 in a 600-pixel field is
deleted with everything else untouched. -/
theorem move_offField_deletes_witness :
    (ballBounds ballOff).top > gameA.windowHeight ∧
    Ball.move gameA ballOff = ({ ballOff with delete := true }, gameA) :=
  ⟨by norm_num [ballBounds, ballOff, gameA],
   move_offField_deletes gameA ballOff (by norm_num [ballBounds, ballOff, gameA])⟩

/-- C7 (amended): a call to move() on a ball that has not left the field
flips the parity flag exactly once (the off-field early exit of C8 skips the
flip, so the unconditional claim fails). The flip is sequenced after the
collision chain: the chain reads the pre-flip value `b.collisionState`. -/
theorem move_parity_flip (g : GraphicsRunner) (b : Ball)
    (h : ¬ (ballBounds b).top > g.windowHeight) :
    (Ball.move g b).1.collisionState = !b.collisionState := by
  unfold Ball.move
  rw [if_neg h]

/-- Witness for C7: the on-field ball `ballA` has its parity flipped. -/
theorem move_parity_flip_witness :
    ¬ (ballBounds ballA).top > gameA.windowHeight ∧
    (Ball.move gameA ballA).1.collisionState = !ballA.collisionState :=
  ⟨by norm_num [ballBounds, ballA, gameA],
   move_parity_flip gameA ballA (by norm_num [ballBounds, ballA, gameA])⟩

/-- Counterexample for C7: a ball that has left the field returns early from
move() and its parity flag is NOT flipped, refuting "flips exactly once per
call". -/
theorem move_parity_counterexample :
    (ballBounds ballOff).top > gameA.windowHeight ∧
    (Ball.move gameA ballOff).1.collisionState ≠ !ballOff.collisionState := by
  have h : (ballBounds ballOff).top > gameA.windowHeight := by
    norm_num [ballBounds, ballOff, gameA]
  refine ⟨h, ?_⟩
  rw [move_offField_eq gameA ballOff h]
  simp [ballOff]

/-- C4 (amended): an attached ball that is on the field and carries the zero
velocity the constructors and the spec's invariant give it is snapped to
(anchor.x, anchor.y - radius) by move(), and no collision checks are
performed: the game state comes back untouched. (The unconditional
"regardless of the velocity field" claim fails because the final
translation still adds the velocity after the snap.) -/
theorem move_attached_snap (g : GraphicsRunner) (b : Ball) (a : Vec2)
    (hfield : ¬ (ballBounds b).top > g.windowHeight)
    (hatt : b.attachedPos = some a) (hvel : b.vel = ⟨0, 0⟩) :
    (Ball.move g b).1.pos = ⟨a.x, a.y - b.radius⟩ ∧ (Ball.move g b).2 = g := by
  have hatt' : b.isAttached = true := by simp [Ball.isAttached, hatt]
  have hph := collisionPhase_attached g b hatt'
  constructor
  · unfold Ball.move
    rw [if_neg hfield]
    simp only [hph, hatt, hvel, hatt']
    split_ifs <;> norm_num
  · unfold Ball.move
    rw [if_neg hfield]
    simp only [hph]

/-- Witness for C4: the concrete attached zero-velocity ball lands exactly
at (50, 45) = (anchor.x, anchor.y - radius), with the game untouched. -/
theorem move_attached_snap_witness :
    (Ball.move gameA ballAttachedZ).1.pos = ⟨50, (50 : ℝ) - ballAttachedZ.radius⟩ ∧
    (Ball.move gameA ballAttachedZ).2 = gameA :=
  move_attached_snap gameA ballAttachedZ ⟨50, 50⟩
    (by norm_num [ballBounds, ballAttachedZ, gameA]) rfl rfl

/-- Counterexample for C4: an attached ball whose velocity field is (1,1)
does NOT end move() at (anchor.x, anchor.y - radius): the final translation
adds the stored velocity after the snap, so "regardless of the value stored
in its velocity field" is false. -/
theorem move_attached_counterexample :
    ballAttachedV.attachedPos = some ⟨50, 50⟩ ∧
    (Ball.move gameA ballAttachedV).1.pos ≠ ⟨50, (50 : ℝ) - ballAttachedV.radius⟩ := by
  refine ⟨rfl, ?_⟩
  have hph := collisionPhase_attached gameA ballAttachedV rfl
  unfold Ball.move
  rw [if_neg (by norm_num [ballBounds, ballAttachedV, gameA])]
  simp only [hph]
  norm_num [ballAttachedV, gameA, Vec2.ext_iff]

/-- C5: Barrier::collision answers 'h' (Horizontal) when the box meets the
left or right wall, else 'v' (Vertical) when it meets the top wall, else
'n' (None), and in every case the passed bounding box comes back
unmodified. -/
theorem barrier_collision_characterized (bar : Barrier) (box : Rect) :
    (bar.collision box).2 = box ∧
    (bar.left.intersects box ∨ bar.right.intersects box → (bar.collision box).1 = 'h') ∧
    (¬ (bar.left.intersects box ∨ bar.right.intersects box) → bar.top.intersects box →
      (bar.collision box).1 = 'v') ∧
    (¬ (bar.left.intersects box ∨ bar.right.intersects box) → ¬ bar.top.intersects box →
      (bar.collision box).1 = 'n') := by
  unfold Barrier.collision
  refine ⟨?_, ?_, ?_, ?_⟩
  · split_ifs <;> rfl
  · intro h
    rw [if_pos h]
  · intro h1 h2
    rw [if_neg h1, if_pos h2]
  · intro h1 h2
    rw [if_neg h1, if_neg h2]

/-- Witness for C5: a box on the left wall of the realistic barrier gets 'h'
and its box back unchanged. -/
theorem barrier_collision_characterized_witness :
    (wallBarrier.collision boxNearLeft).1 = 'h' ∧
    (wallBarrier.collision boxNearLeft).2 = boxNearLeft :=
  ⟨(barrier_collision_characterized wallBarrier boxNearLeft).2.1
      (Or.inl (by norm_num [Rect.intersects, wallBarrier, boxNearLeft, min_def, max_def])),
   (barrier_collision_characterized wallBarrier boxNearLeft).1⟩

/-- C9: a free ball's peer-facing query against a box whose centre is within
radius/4 of the ball's own centre (the degenerate self-query included)
returns 'n' and leaves the box unwritten: the epsilon guard rejects
near-zero distances. -/
theorem ball_query_epsilon (b : Ball) (box : Rect)
    (hfree : b.attachedPos = none)
    (hnear : Real.sqrt ((b.pos.x - (box.left + box.width / 2)) ^ 2 +
        (b.pos.y - (box.top + box.height / 2)) ^ 2) ≤ b.radius / 4) :
    b.collision box = ('n', box) := by
  have hf : b.isAttached = false := by simp [Ball.isAttached, hfree]
  unfold Ball.collision
  simp only [hf, Bool.false_eq_true, if_false]
  rw [if_neg fun hc => absurd hc.2 (not_lt.mpr hnear)]

/-- Witness for C9: `ballA` queried against its own bounds (distance zero)
reports no contact and writes nothing. -/
theorem ball_query_epsilon_witness :
    ballA.collision (ballBounds ballA) = ('n', ballBounds ballA) :=
  ball_query_epsilon ballA (ballBounds ballA) rfl
    (by norm_num [ballA, ballBounds, Real.sqrt_zero])

/-- C6: the contact angle used for angle-based resolution is
arctan(Δx / Δy) converted to degrees (the program's degrees-per-radian
literal 57.295779513), with the special case that Δy = 0 yields exactly 90
degrees (the program's binary32 product 1.570796327f * 57.295779513f rounds
to exactly 90.0f). -/
theorem contact_angle_spec (object1 : Vec2) (object2 : Rect) :
    (object1.y - object2.top = 0 → getContactAngle object1 object2 = 90) ∧
    (object1.y - object2.top ≠ 0 →
      getContactAngle object1 object2 =
        Real.arctan ((object1.x - object2.left) / (object1.y - object2.top)) *
          57.295779513) := by
  constructor
  · intro h
    simp only [getContactAngle]
    rw [if_pos h]
  · intro h
    simp only [getContactAngle]
    rw [if_neg h]

/-- Witness for C6: a concrete Δy = 0 pair giving exactly 90 degrees, and a
concrete Δy ≠ 0 pair giving the arctangent form. -/
theorem contact_angle_spec_witness :
    getContactAngle ⟨1, 2⟩ ⟨0, 2, 0, 0⟩ = 90 ∧
    getContactAngle ⟨0, 2⟩ ⟨0, 1, 0, 0⟩ =
      Real.arctan ((0 - 0) / (2 - 1)) * 57.295779513 :=
  ⟨(contact_angle_spec ⟨1, 2⟩ ⟨0, 2, 0, 0⟩).1 (by norm_num),
   (contact_angle_spec ⟨0, 2⟩ ⟨0, 1, 0, 0⟩).2 (by norm_num)⟩

/-- Helper: composing two rotations adds the angles (the degree-to-radian
conversion is linear, so the literal coefficient distributes). -/
theorem rotationDeg_mul (a b : ℝ) :
    (rotationDeg a).mul (rotationDeg b) = rotationDeg (a + b) := by
  have h : (a + b) * 3.141592654 / 180 =
      a * 3.141592654 / 180 + b * 3.141592654 / 180 := by ring
  simp only [rotationDeg, Mat2.mul, h, Real.cos_add, Real.sin_add, Mat2.mk.injEq]
  refine ⟨?_, ?_, ?_, ?_⟩ <;> ring_nf

/-- C10: in the rotated contact frame the swap of the two y velocities keeps
their sum, and after both vectors are taken back to world coordinates by the
same composed transform the sum of the y components is still exactly the
original one. -/
theorem ballball_momentum (contactAngle : ℝ) (vel otherVel : Vec2) :
    (Vec2.mk ((rotationDeg contactAngle).transformPoint vel).x
          ((rotationDeg contactAngle).transformPoint otherVel).y).y +
        (Vec2.mk ((rotationDeg contactAngle).transformPoint otherVel).x
          ((rotationDeg contactAngle).transformPoint vel).y).y =
      ((rotationDeg contactAngle).transformPoint vel).y +
        ((rotationDeg contactAngle).transformPoint otherVel).y ∧
    (resolveBallBall contactAngle vel otherVel).1.y +
        (resolveBallBall contactAngle vel otherVel).2.y =
      vel.y + otherVel.y := by
  constructor
  · exact add_comm _ _
  · have h2 : contactAngle + -2 * contactAngle = -contactAngle := by ring
    have h3 : -contactAngle * 3.141592654 / 180 =
        -(contactAngle * 3.141592654 / 180) := by ring
    simp only [resolveBallBall]
    rw [rotationDeg_mul, h2]
    simp only [rotationDeg, h3, Real.cos_neg, Real.sin_neg, Mat2.transformPoint]
    linear_combination (vel.y + otherVel.y) *
      Real.sin_sq_add_cos_sq (contactAngle * 3.141592654 / 180)

/-- Helper: the bounds of a radius-5 ball centred at (100,100). -/
theorem bounds_at_100 (b : Ball) (hp : b.pos = ⟨100, 100⟩) (hr : b.radius = 5) :
    ballBounds b = ⟨95, 95, 10, 10⟩ := by
  norm_num [ballBounds, hp, hr]

/-- Helper: the far-away test barrier reports no contact on that box. -/
theorem testBarrier_none :
    Barrier.collision testBarrier ⟨95, 95, 10, 10⟩ = ('n', ⟨95, 95, 10, 10⟩) := by
  unfold Barrier.collision
  rw [if_neg (by norm_num [Rect.intersects, testBarrier, farRect, min_def, max_def]),
    if_neg (by norm_num [Rect.intersects, testBarrier, farRect, min_def, max_def])]

/-- Helper: the far-away test paddle reports no contact on that box. -/
theorem testPaddle_none :
    Paddle.collision testPaddle ⟨95, 95, 10, 10⟩ = ('n', ⟨95, 95, 10, 10⟩) := by
  norm_num [Paddle.collision, testPaddle, farRect, Rect.intersects, min_def, max_def]

/-- Helper: no barrier response on the test layout. -/
theorem handleBarrier_none (v : Vec2) :
    handleBarrierCollisions testBarrier ⟨95, 95, 10, 10⟩ v = none := by
  unfold handleBarrierCollisions
  rw [testBarrier_none]
  rfl

/-- Helper: no paddle response on the test layout. -/
theorem handlePaddle_none (pos : Vec2) (v : Vec2) :
    handlePaddleCollisions testPaddle pos ⟨95, 95, 10, 10⟩ v = none := by
  unfold handlePaddleCollisions
  rw [testPaddle_none]
  rfl

/-- Helper: the collision chain when the ball is free and every handler
declines. -/
theorem collisionPhase_noCollision (g : GraphicsRunner) (b : Ball)
    (hfree : b.attachedPos = none)
    (hbar : handleBarrierCollisions g.barrier (ballBounds b) b.vel = none)
    (hpad : handlePaddleCollisions g.paddle b.pos (ballBounds b) b.vel = none)
    (hbrick : (handleBrickCollisions b.pos (ballBounds b) b.vel g.bricks).2 = none)
    (hball : (handleBallCollisions b.pos b.collisionState (ballBounds b) b.vel
      g.balls).2 = none) :
    collisionPhase g b =
      (false, b.vel, (handleBrickCollisions b.pos (ballBounds b) b.vel g.bricks).1,
       (handleBallCollisions b.pos b.collisionState (ballBounds b) b.vel g.balls).1) := by
  have hf : b.isAttached = false := by simp [Ball.isAttached, hfree]
  unfold collisionPhase
  simp only [hf, Bool.false_eq_true, if_false, hbar, hpad, hbrick, hball]

/-- Helper: the velocity move() produces when nothing collides is the input
velocity, clamped only by the signed speed test. -/
theorem move_noCollision_vel (g : GraphicsRunner) (b : Ball)
    (hfield : ¬ (ballBounds b).top > g.windowHeight)
    (hfree : b.attachedPos = none)
    (hbar : handleBarrierCollisions g.barrier (ballBounds b) b.vel = none)
    (hpad : handlePaddleCollisions g.paddle b.pos (ballBounds b) b.vel = none)
    (hbrick : (handleBrickCollisions b.pos (ballBounds b) b.vel g.bricks).2 = none)
    (hball : (handleBallCollisions b.pos b.collisionState (ballBounds b) b.vel
      g.balls).2 = none) :
    (Ball.move g b).1.vel =
      if b.vel.x > g.ballMaxSpeed ∨ b.vel.y > g.ballMaxSpeed then
        ⟨b.vel.x * 0.99, b.vel.y * 0.99⟩
      else b.vel := by
  have hph := collisionPhase_noCollision g b hfree hbar hpad hbrick hball
  unfold Ball.move
  rw [if_neg hfield]
  simp only [hph]

/-- C1 (amended): the clamp triggers on the signed test v.x > MAX or
v.y > MAX applied to the post-collision velocity; when it triggers, both
components are multiplied by 0.99, so a component strictly shrinks in
magnitude exactly when it is nonzero. (The claim as stated, with |v.x| >
MAX, fails: a large negative component never triggers the clamp.) -/
theorem speed_clamp_spec (g : GraphicsRunner) (b : Ball)
    (hfield : ¬ (ballBounds b).top > g.windowHeight)
    (hfree : b.attachedPos = none)
    (hbar : handleBarrierCollisions g.barrier (ballBounds b) b.vel = none)
    (hpad : handlePaddleCollisions g.paddle b.pos (ballBounds b) b.vel = none)
    (hbrick : (handleBrickCollisions b.pos (ballBounds b) b.vel g.bricks).2 = none)
    (hball : (handleBallCollisions b.pos b.collisionState (ballBounds b) b.vel
      g.balls).2 = none)
    (hfast : b.vel.x > g.ballMaxSpeed ∨ b.vel.y > g.ballMaxSpeed) :
    (Ball.move g b).1.vel = ⟨b.vel.x * 0.99, b.vel.y * 0.99⟩ ∧
    (b.vel.x ≠ 0 → |b.vel.x * 0.99| < |b.vel.x|) ∧
    (b.vel.y ≠ 0 → |b.vel.y * 0.99| < |b.vel.y|) := by
  refine ⟨?_, ?_, ?_⟩
  · rw [move_noCollision_vel g b hfield hfree hbar hpad hbrick hball, if_pos hfast]
  · intro hx
    rw [abs_mul, show |(0.99 : ℝ)| = 0.99 by norm_num]
    have := abs_pos.mpr hx
    linarith
  · intro hy
    rw [abs_mul, show |(0.99 : ℝ)| = 0.99 by norm_num]
    have := abs_pos.mpr hy
    linarith

/-- Witness for C1: a free ball with velocity (20,5) against ceiling 10 is
damped to (19.8, 4.95); its x component strictly shrinks in magnitude. -/
theorem speed_clamp_spec_witness :
    (ballFastPos.vel.x > gameA.ballMaxSpeed ∨ ballFastPos.vel.y > gameA.ballMaxSpeed) ∧
    (Ball.move gameA ballFastPos).1.vel =
      ⟨ballFastPos.vel.x * 0.99, ballFastPos.vel.y * 0.99⟩ ∧
    |ballFastPos.vel.x * 0.99| < |ballFastPos.vel.x| := by
  have hb : ballBounds ballFastPos = ⟨95, 95, 10, 10⟩ := bounds_at_100 ballFastPos rfl rfl
  have hfast : ballFastPos.vel.x > gameA.ballMaxSpeed ∨
      ballFastPos.vel.y > gameA.ballMaxSpeed :=
    Or.inl (by norm_num [ballFastPos, gameA])
  have hs := speed_clamp_spec gameA ballFastPos
    (by rw [hb]; norm_num [gameA])
    rfl
    (by rw [hb]; exact handleBarrier_none _)
    (by rw [hb]; exact handlePaddle_none _ _)
    rfl
    rfl
    hfast
  exact ⟨hfast, hs.1, hs.2.1 (by norm_num [ballFastPos])⟩

/-- Counterexample for C1: the claim as stated quantifies the trigger with
absolute values. The free ball with velocity (-20,0) has |v.x| > 10, but no
handler fires and the signed clamp test -20 > 10 is false, so move() leaves
the velocity exactly (-20,0) — not strictly smaller in magnitude. -/
theorem speed_clamp_counterexample : ¬ speedClampClaim := by
  intro hclaim
  have hb : ballBounds ballFastNeg = ⟨95, 95, 10, 10⟩ := bounds_at_100 ballFastNeg rfl rfl
  have h := hclaim gameA ballFastNeg (Or.inl (by norm_num [ballFastNeg, gameA]))
  have hvel : (Ball.move gameA ballFastNeg).1.vel = ballFastNeg.vel := by
    rw [move_noCollision_vel gameA ballFastNeg
      (by rw [hb]; norm_num [gameA])
      rfl
      (by rw [hb]; exact handleBarrier_none _)
      (by rw [hb]; exact handlePaddle_none _ _)
      rfl
      rfl]
    rw [if_neg (by norm_num [ballFastNeg, gameA])]
  rw [hvel] at h
  exact absurd h.1 (lt_irrefl _)

/-- Helper: the square root of 64. -/
theorem sqrt_sixtyfour : Real.sqrt 64 = 8 := by
  rw [show (64 : ℝ) = 8 ^ 2 by norm_num]
  exact Real.sqrt_sq (by norm_num)

/-- Helper: scenario 2's peer query: ball B against ball A's bounds answers
'y' and stores B's centre and velocity in the box. -/
theorem ballB_query :
    ballB.collision ⟨95, 95, 10, 10⟩ = ('y', ⟨100, 108, 0, 3⟩) := by
  unfold Ball.collision
  norm_num [Ball.isAttached, ballB, sqrt_sixtyfour]

/-- Helper: scenario 2's contact angle is exactly zero. -/
theorem ballAB_angle : getContactAngle ballA.pos ⟨100, 108, 0, 3⟩ = 0 := by
  norm_num [getContactAngle, ballA, Real.arctan_zero]

/-- Helper: the zero-angle resolution swaps the y velocities of (0,-2) and
(0,3). -/
theorem resolve_scenario2 :
    resolveBallBall 0 ballA.vel ⟨0, 3⟩ = (⟨0, 3⟩, ⟨0, -2⟩) := by
  norm_num [resolveBallBall, rotationDeg, Mat2.mul, Mat2.transformPoint, ballA,
    Real.cos_zero, Real.sin_zero]

/-- C2: two free radius-5 balls at (100,100) with velocity (0,-2) and
(100,108) with velocity (0,3): the centre distance is 8, under the contact
threshold and over the radius/4 epsilon, so B's query against A's bounds
reports contact and stores B's data; the contact angle is 0 degrees; and
the resolution by A's handler swaps the y velocities, giving A velocity
(0,3) and writing velocity (0,-2) directly into B. -/
theorem two_ball_scenario :
    Real.sqrt ((ballB.pos.x - ((ballBounds ballA).left + (ballBounds ballA).width / 2)) ^ 2 +
        (ballB.pos.y - ((ballBounds ballA).top + (ballBounds ballA).height / 2)) ^ 2) = 8 ∧
    (8 : ℝ) < (ballBounds ballA).width / 2 + ballB.radius ∧
    (8 : ℝ) > ballB.radius / 4 ∧
    ballB.collision (ballBounds ballA) = ('y', ⟨100, 108, 0, 3⟩) ∧
    getContactAngle ballA.pos ⟨100, 108, 0, 3⟩ = 0 ∧
    handleBallCollisions ballA.pos ballA.collisionState (ballBounds ballA) ballA.vel [ballB] =
      ([{ ballB with vel := ⟨0, -2⟩ }], some ⟨0, 3⟩) := by
  have hb : ballBounds ballA = ⟨95, 95, 10, 10⟩ := bounds_at_100 ballA rfl rfl
  refine ⟨?_, ?_, ?_, ?_, ballAB_angle, ?_⟩
  · rw [hb]
    norm_num [ballB, sqrt_sixtyfour]
  · rw [hb]
    norm_num [ballB]
  · norm_num [ballB]
  · rw [hb]
    exact ballB_query
  · rw [hb]
    simp only [handleBallCollisions]
    rw [if_neg (by decide)]
    simp only [ballB_query, ballAB_angle, resolve_scenario2]
    rw [if_pos trivial]

/-- Helper: under AABB overlap, Brick::collision is the flat decision chain
over the midline tests and the four corner distances. -/
theorem brick_collision_eq (brick : Brick) (box : Rect)
    (hov : brick.rect.intersects box) :
    brick.collision box =
      if brick.rect.containsPt (box.left + box.width / 2) box.top ∨
          brick.rect.containsPt (box.left + box.width / 2) (box.top + box.height) then
        ('v', box)
      else if brick.rect.containsPt box.left (box.top + box.height / 2) ∨
          brick.rect.containsPt (box.left + box.width) (box.top + box.height / 2) then
        ('h', box)
      else if Real.sqrt ((box.left + box.width / 2 - brick.rect.left) ^ 2 +
          (box.top + box.height / 2 - brick.rect.top) ^ 2) < box.width / 2 then
        ('c', ⟨brick.rect.left, brick.rect.top, box.width, box.height⟩)
      else if Real.sqrt ((box.left + box.width / 2 - (brick.rect.left + brick.rect.width)) ^ 2 +
          (box.top + box.height / 2 - brick.rect.top) ^ 2) < box.width / 2 then
        ('c', ⟨brick.rect.left + brick.rect.width, brick.rect.top, box.width, box.height⟩)
      else if Real.sqrt ((box.left + box.width / 2 - (brick.rect.left + brick.rect.width)) ^ 2 +
          (box.top + box.height / 2 - (brick.rect.top + brick.rect.height)) ^ 2) <
            box.width / 2 then
        ('c', ⟨brick.rect.left + brick.rect.width, brick.rect.top + brick.rect.height,
               box.width, box.height⟩)
      else if Real.sqrt ((box.left + box.width / 2 - brick.rect.left) ^ 2 +
          (box.top + box.height / 2 - (brick.rect.top + brick.rect.height)) ^ 2) <
            box.width / 2 then
        ('c', ⟨brick.rect.left, brick.rect.top + brick.rect.height, box.width, box.height⟩)
      else ('n', box) := by
  simp only [Brick.collision]
  rw [if_pos hov]

/-- C3: for a circle box overlapping the brick's box the outcome is exactly
one of 'v', 'h', 'c', 'n'; 'v' holds exactly on the vertical midline test,
'h' exactly when that fails and the horizontal one holds, 'c' exactly when
both fail and some corner is within the radius, 'n' exactly when all fail;
and a 'c' outcome stores the coordinates of a hit corner in the bounds. -/
theorem brick_collision_dispatch (brick : Brick) (box : Rect)
    (hov : brick.rect.intersects box) :
    ((brick.collision box).1 = 'v' ∨ (brick.collision box).1 = 'h' ∨
        (brick.collision box).1 = 'c' ∨ (brick.collision box).1 = 'n') ∧
    ((brick.collision box).1 = 'v' ↔ vertTest brick box) ∧
    ((brick.collision box).1 = 'h' ↔ ¬ vertTest brick box ∧ horizTest brick box) ∧
    ((brick.collision box).1 = 'c' ↔
      ¬ vertTest brick box ∧ ¬ horizTest brick box ∧ cornerTest brick box) ∧
    ((brick.collision box).1 = 'n' ↔
      ¬ vertTest brick box ∧ ¬ horizTest brick box ∧ ¬ cornerTest brick box) ∧
    ((brick.collision box).1 = 'c' →
      ∃ p ∈ brickCorners brick,
        Real.sqrt ((box.left + box.width / 2 - p.x) ^ 2 +
            (box.top + box.height / 2 - p.y) ^ 2) < box.width / 2 ∧
        (brick.collision box).2.left = p.x ∧ (brick.collision box).2.top = p.y) := by
  have heq := brick_collision_eq brick box hov
  by_cases hv : brick.rect.containsPt (box.left + box.width / 2) box.top ∨
      brick.rect.containsPt (box.left + box.width / 2) (box.top + box.height)
  · rw [heq, if_pos hv]
    refine ⟨Or.inl rfl, ?_, ?_, ?_, ?_, ?_⟩
    · exact ⟨fun _ => hv, fun _ => rfl⟩
    · exact ⟨fun h => absurd h (by simp), fun h => absurd hv h.1⟩
    · exact ⟨fun h => absurd h (by simp), fun h => absurd hv h.1⟩
    · exact ⟨fun h => absurd h (by simp), fun h => absurd hv h.1⟩
    · intro h
      exact absurd h (by simp)
  by_cases hh : brick.rect.containsPt box.left (box.top + box.height / 2) ∨
      brick.rect.containsPt (box.left + box.width) (box.top + box.height / 2)
  · rw [heq, if_neg hv, if_pos hh]
    refine ⟨Or.inr (Or.inl rfl), ?_, ?_, ?_, ?_, ?_⟩
    · exact ⟨fun h => absurd h (by simp), fun h => absurd h hv⟩
    · exact ⟨fun _ => ⟨hv, hh⟩, fun _ => rfl⟩
    · exact ⟨fun h => absurd h (by simp), fun h => absurd hh h.2.1⟩
    · exact ⟨fun h => absurd h (by simp), fun h => absurd hh h.2.1⟩
    · intro h
      exact absurd h (by simp)
  by_cases h1 : Real.sqrt ((box.left + box.width / 2 - brick.rect.left) ^ 2 +
      (box.top + box.height / 2 - brick.rect.top) ^ 2) < box.width / 2
  · rw [heq, if_neg hv, if_neg hh, if_pos h1]
    have hc : cornerTest brick box :=
      ⟨⟨brick.rect.left, brick.rect.top⟩, by simp [brickCorners], h1⟩
    refine ⟨Or.inr (Or.inr (Or.inl rfl)), ?_, ?_, ?_, ?_, ?_⟩
    · exact ⟨fun h => absurd h (by simp), fun h => absurd h hv⟩
    · exact ⟨fun h => absurd h (by simp), fun h => absurd h.2 hh⟩
    · exact ⟨fun _ => ⟨hv, hh, hc⟩, fun _ => rfl⟩
    · exact ⟨fun h => absurd h (by simp), fun h => absurd hc h.2.2⟩
    · intro _
      exact ⟨⟨brick.rect.left, brick.rect.top⟩, by simp [brickCorners], h1, rfl, rfl⟩
  by_cases h2 : Real.sqrt ((box.left + box.width / 2 - (brick.rect.left + brick.rect.width)) ^ 2 +
      (box.top + box.height / 2 - brick.rect.top) ^ 2) < box.width / 2
  · rw [heq, if_neg hv, if_neg hh, if_neg h1, if_pos h2]
    have hc : cornerTest brick box :=
      ⟨⟨brick.rect.left + brick.rect.width, brick.rect.top⟩, by simp [brickCorners], h2⟩
    refine ⟨Or.inr (Or.inr (Or.inl rfl)), ?_, ?_, ?_, ?_, ?_⟩
    · exact ⟨fun h => absurd h (by simp), fun h => absurd h hv⟩
    · exact ⟨fun h => absurd h (by simp), fun h => absurd h.2 hh⟩
    · exact ⟨fun _ => ⟨hv, hh, hc⟩, fun _ => rfl⟩
    · exact ⟨fun h => absurd h (by simp), fun h => absurd hc h.2.2⟩
    · intro _
      exact ⟨⟨brick.rect.left + brick.rect.width, brick.rect.top⟩,
        by simp [brickCorners], h2, rfl, rfl⟩
  by_cases h3 : Real.sqrt ((box.left + box.width / 2 - (brick.rect.left + brick.rect.width)) ^ 2 +
      (box.top + box.height / 2 - (brick.rect.top + brick.rect.height)) ^ 2) < box.width / 2
  · rw [heq, if_neg hv, if_neg hh, if_neg h1, if_neg h2, if_pos h3]
    have hc : cornerTest brick box :=
      ⟨⟨brick.rect.left + brick.rect.width, brick.rect.top + brick.rect.height⟩,
        by simp [brickCorners], h3⟩
    refine ⟨Or.inr (Or.inr (Or.inl rfl)), ?_, ?_, ?_, ?_, ?_⟩
    · exact ⟨fun h => absurd h (by simp), fun h => absurd h hv⟩
    · exact ⟨fun h => absurd h (by simp), fun h => absurd h.2 hh⟩
    · exact ⟨fun _ => ⟨hv, hh, hc⟩, fun _ => rfl⟩
    · exact ⟨fun h => absurd h (by simp), fun h => absurd hc h.2.2⟩
    · intro _
      exact ⟨⟨brick.rect.left + brick.rect.width, brick.rect.top + brick.rect.height⟩,
        by simp [brickCorners], h3, rfl, rfl⟩
  by_cases h4 : Real.sqrt ((box.left + box.width / 2 - brick.rect.left) ^ 2 +
      (box.top + box.height / 2 - (brick.rect.top + brick.rect.height)) ^ 2) < box.width / 2
  · rw [heq, if_neg hv, if_neg hh, if_neg h1, if_neg h2, if_neg h3, if_pos h4]
    have hc : cornerTest brick box :=
      ⟨⟨brick.rect.left, brick.rect.top + brick.rect.height⟩, by simp [brickCorners], h4⟩
    refine ⟨Or.inr (Or.inr (Or.inl rfl)), ?_, ?_, ?_, ?_, ?_⟩
    · exact ⟨fun h => absurd h (by simp), fun h => absurd h hv⟩
    · exact ⟨fun h => absurd h (by simp), fun h => absurd h.2 hh⟩
    · exact ⟨fun _ => ⟨hv, hh, hc⟩, fun _ => rfl⟩
    · exact ⟨fun h => absurd h (by simp), fun h => absurd hc h.2.2⟩
    · intro _
      exact ⟨⟨brick.rect.left, brick.rect.top + brick.rect.height⟩,
        by simp [brickCorners], h4, rfl, rfl⟩
  · have hnc : ¬ cornerTest brick box := by
      rintro ⟨p, hp, hd⟩
      simp only [brickCorners, List.mem_cons, List.not_mem_nil, or_false] at hp
      rcases hp with rfl | rfl | rfl | rfl
      · exact h1 hd
      · exact h2 hd
      · exact h3 hd
      · exact h4 hd
    rw [heq, if_neg hv, if_neg hh, if_neg h1, if_neg h2, if_neg h3, if_neg h4]
    refine ⟨Or.inr (Or.inr (Or.inr rfl)), ?_, ?_, ?_, ?_, ?_⟩
    · exact ⟨fun h => absurd h (by simp), fun h => absurd h hv⟩
    · exact ⟨fun h => absurd h (by simp), fun h => absurd h.2 hh⟩
    · exact ⟨fun h => absurd h (by simp), fun h => absurd h.2.2 hnc⟩
    · exact ⟨fun _ => ⟨hv, hh, hnc⟩, fun _ => rfl⟩
    · intro h
      exact absurd h (by simp)

/-- Witness for C3: scenario 1 — the radius-5 circle at (100,100) overlaps
brick (90,80,40,20), its top midline point (100,95) is inside the brick,
and the dispatch answers 'v'. -/
theorem brick_collision_dispatch_witness :
    brickA.rect.intersects ⟨95, 95, 10, 10⟩ ∧
    (brickA.collision ⟨95, 95, 10, 10⟩).1 = 'v' := by
  have hov : brickA.rect.intersects ⟨95, 95, 10, 10⟩ := by
    norm_num [Rect.intersects, brickA, min_def, max_def]
  refine ⟨hov, ?_⟩
  exact (brick_collision_dispatch brickA ⟨95, 95, 10, 10⟩ hov).2.1.mpr
    (Or.inl (by norm_num [Rect.containsPt, brickA, min_def, max_def]))

end BrickBreaker
